import Mathlib

/-!
Shallow embedding of the Telegram file-proxy worker (handlers.ts, utils.ts,
index.ts).  Pure logic is translated directly; the outbound Telegram API is an
explicit oracle argument (`UpstreamResult`), and HTTP responses are a record of
the observable fields (status, JSON `status`/`message` fields, redirect
location, headers, raw body text where a claim needs it).
-/

namespace TgBot

/-- PhotoSize from types.ts; `file_unique_id`, `width`, `height` are never read
by any code path, so they are elided from the embedding. -/
structure PhotoSize where
  file_id : String
  file_size : Option Nat
deriving Repr, DecidableEq

/-- Document from types.ts (fields the code reads: `file_id`, `file_name`). -/
structure Document where
  file_id : String
  file_name : Option String
deriving Repr, DecidableEq

/-- Video from types.ts (fields the code reads). -/
structure Video where
  file_id : String
  file_name : Option String
deriving Repr, DecidableEq

/-- Audio from types.ts (fields the code reads). -/
structure Audio where
  file_id : String
  file_name : Option String
deriving Repr, DecidableEq

/-- Voice from types.ts; the Voice type has no `file_name` field. -/
structure Voice where
  file_id : String
deriving Repr, DecidableEq

/-- Chat from types.ts (only `chat.id` is read by the webhook handler). -/
structure Chat where
  id : Int
deriving Repr, DecidableEq

/-- Message from types.ts, restricted to the fields the webhook handler reads. -/
structure Message where
  chat : Chat
  text : Option String
  photo : Option (List PhotoSize)
  document : Option Document
  video : Option Video
  audio : Option Audio
  voice : Option Voice
deriving Repr, DecidableEq

/-- The sort key of the comparator `(b.file_size || 0) - (a.file_size || 0)`:
an absent `file_size` counts as 0. -/
def photoKey (p : PhotoSize) : Nat :=
  p.file_size.getD 0

/-- Stable descending insertion: `x` is placed before the first element whose
key is less than or equal to `photoKey x`.  Because `x` originally precedes
every element of the list it is inserted into (see `sortPhotosDesc`), this is
exactly the stable ordering that ECMAScript 2019+ mandates for
`Array.prototype.sort` with comparator `(a, b) => (b.file_size || 0) - (a.file_size || 0)`. -/
def insertDesc (x : PhotoSize) : List PhotoSize → List PhotoSize
  | [] => [x]
  | y :: ys => if photoKey y ≤ photoKey x then x :: y :: ys else y :: insertDesc x ys

/-- `photo.sort((a, b) => (b.file_size || 0) - (a.file_size || 0))`: stable sort,
descending by `file_size || 0`. -/
def sortPhotosDesc (ps : List PhotoSize) : List PhotoSize :=
  ps.foldr insertDesc []

/-- Tagged union for `Document | Video | Audio | Voice | PhotoSize`. -/
inductive Media where
  | doc (d : Document)
  | vid (v : Video)
  | aud (a : Audio)
  | voi (v : Voice)
  | pho (p : PhotoSize)
deriving Repr, DecidableEq

/-- The `file_id` field of whichever media variant was selected. -/
def Media.file_id : Media → String
  | .doc d => d.file_id
  | .vid v => v.file_id
  | .aud a => a.file_id
  | .voi v => v.file_id
  | .pho p => p.file_id

/-- handlers.ts line 77-78:
`document || video || audio || voice || (photo && photo.sort(...)[0])`.
Each media field is an object when present (hence truthy); an empty photo
array is truthy in JS, so the photo branch evaluates `sort(...)[0]`, which is
`undefined` for an empty array. -/
def selectMedia (m : Message) : Option Media :=
  match m.document with
  | some d => some (.doc d)
  | none =>
    match m.video with
    | some v => some (.vid v)
    | none =>
      match m.audio with
      | some a => some (.aud a)
      | none =>
        match m.voice with
        | some v => some (.voi v)
        | none =>
          match m.photo with
          | some ps => ((sortPhotosDesc ps).head?).map .pho
          | none => none

/-- handlers.ts line 80 `if (media && media.file_id)`: the media branch is taken
only when a media value was selected and its `file_id` is a truthy (non-empty)
string. -/
def chosenFile (m : Message) : Option Media :=
  match selectMedia m with
  | some md => if md.file_id = "" then none else some md
  | none => none

/-- handlers.ts line 83:
`'file_name' in media && media.file_name ? media.file_name : 'telegram_file'`.
Voice and PhotoSize have no `file_name` property; for the others an absent or
empty `file_name` is falsy. -/
def mediaFileName : Media → String
  | .doc d => match d.file_name with
    | some n => if n = "" then "telegram_file" else n
    | none => "telegram_file"
  | .vid v => match v.file_name with
    | some n => if n = "" then "telegram_file" else n
    | none => "telegram_file"
  | .aud a => match a.file_name with
    | some n => if n = "" then "telegram_file" else n
    | none => "telegram_file"
  | .voi _ => "telegram_file"
  | .pho _ => "telegram_file"

/-- The Env bindings.  A Cloudflare binding that is not configured is
`undefined` at runtime, modelled as `none`; a configured binding is `some s`
(possibly the empty string, which is falsy like `undefined`). -/
structure EnvCfg where
  BOT_TOKEN : Option String
  SECRET_TOKEN : Option String
  WORKER_URL : Option String
deriving Repr, DecidableEq

/-- JS truthiness of an optional string: `undefined` and `""` are falsy. -/
def strTruthy (o : Option String) : Bool :=
  !(o.getD "" == "")

/-- `env.SECRET_TOKEN || ''` (utils.ts line 52). -/
def secretValue (env : EnvCfg) : String :=
  env.SECRET_TOKEN.getD ""

/-- Incoming webhook request: the `X-Telegram-Bot-API-Secret-Token` header,
the result of `request.json()` (which may throw), and the request host. -/
inductive ParseResult where
  | fail (msg : String)
  | okBody (message : Option Message)
deriving Repr, DecidableEq

structure WebhookRequest where
  secretHeader : Option String
  body : ParseResult
  host : String
deriving Repr, DecidableEq

/-- utils.ts `checkWebhookAuth`: if no secret is configured, allow; otherwise
require the header to equal the configured secret exactly (an absent header is
`null`, which never equals a non-empty secret). -/
def checkWebhookAuth (req : WebhookRequest) (env : EnvCfg) : Bool :=
  if secretValue env == "" then true
  else
    match req.secretHeader with
    | some t => t == secretValue env
    | none => false

/-- Outcome of one outbound Telegram Bot API call, supplied as an oracle:
`ok` when `telegramApi` resolves, `err` when it throws. -/
inductive UpstreamResult (α : Type) where
  | ok (a : α)
  | err (msg : String)
deriving Repr, DecidableEq

/-- utils.ts `telegramApi`: a thrown upstream error becomes `Except.error`. -/
def telegramApiResult {α : Type} (outcome : UpstreamResult α) : Except String α :=
  match outcome with
  | .ok a => .ok a
  | .err m => .error m

/-- utils.ts `sendMessage`: awaits `telegramApi('sendMessage', ...)` inside a
`try`/`catch` whose catch arm only logs.  `Except.ok ()` models a normal
return, `Except.error` would model an exception propagating to the caller. -/
def sendMessage (chatId : Int) (text : String) (env : EnvCfg) (parseMode : String)
    (apiOutcome : UpstreamResult Unit) : Except String Unit :=
  match telegramApiResult apiOutcome with
  | .ok _ => .ok ()
  | .error _ => .ok ()

/-- Observable fields of an HTTP Response: status code; the `status` and
`message` fields of the standard JSON body shape; the `file_info.download_url`
field when the body carries file info; the redirect Location; the raw body
text where a claim needs it (debug endpoint); and the header list. -/
structure Response where
  status : Nat
  jsonStatus : Option String
  jsonMessage : Option String
  downloadUrl : Option String
  location : Option String
  bodyText : Option String
  headers : List (String × String)
deriving Repr, DecidableEq

/-- utils.ts `jsonResponse(data, status)`: a JSON body with the given `status`
and optional `message` fields, and a `Content-Type: application/json` header. -/
def jsonResp (status : Nat) (jstatus : String) (jmessage : Option String) : Response :=
  { status := status
    jsonStatus := some jstatus
    jsonMessage := jmessage
    downloadUrl := none
    location := none
    bodyText := none
    headers := [("Content-Type", "application/json")] }

/-- handlers.ts lines 85 and 117: `env.WORKER_URL || new URL(request.url).host`. -/
def workerHost (env : EnvCfg) (reqHost : String) : String :=
  if strTruthy env.WORKER_URL then env.WORKER_URL.getD "" else reqHost

/-- The fixed help text sent for messages without media (handlers.ts 92-98). -/
def helpText : String :=
  "你好！请直接向我发送文件、图片、视频或音频，我将为你生成一个公开的下载链接。\n\n你可以通过浏览器访问以下管理端点：\n- `/setWebhook`：设置 Webhook\n- `/deleteWebhook`：删除 Webhook\n- `/info`：获取 Webhook 信息\n- `/debug`：查看 Worker 状态"

/-- Observable side effects of one webhook invocation: whether `request.json()`
was reached, and the `sendMessage` calls issued (chat id, text, parse mode). -/
structure WebhookEffects where
  bodyParseAttempted : Bool
  sendCalls : List (Int × String × String)
deriving Repr, DecidableEq

/-- handlers.ts `handleWebhook`: auth gate, body parse, media selection,
reply, acknowledgment.  `sendOutcome` is the oracle for the one outbound
`sendMessage` call; `sendMessage` swallows its own upstream failure, and an
error escaping it would be caught by the handler's `catch` (500). -/
def handleWebhook (req : WebhookRequest) (env : EnvCfg)
    (sendOutcome : UpstreamResult Unit) : Response × WebhookEffects :=
  if checkWebhookAuth req env = false then
    (jsonResp 403 "error" (some "Unauthorized webhook request"), ⟨false, []⟩)
  else
    match req.body with
    | .fail _ =>
      (jsonResp 500 "error" (some "Internal error processing webhook."), ⟨true, []⟩)
    | .okBody none =>
      (jsonResp 200 "ok" (some "Update received, but no message to process."), ⟨true, []⟩)
    | .okBody (some m) =>
      match chosenFile m with
      | some md =>
        let fname := mediaFileName md
        let url := "https://" ++ workerHost env req.host ++ "/file/" ++ md.file_id
        let text := "已收到文件: " ++ fname ++ "\n下载链接: " ++ url
        match sendMessage m.chat.id text env "Markdown" sendOutcome with
        | .ok _ => (jsonResp 200 "success" none, ⟨true, [(m.chat.id, text, "Markdown")]⟩)
        | .error _ =>
          (jsonResp 500 "error" (some "Internal error processing webhook."),
            ⟨true, [(m.chat.id, text, "Markdown")]⟩)
      | none =>
        match sendMessage m.chat.id helpText env "Markdown" sendOutcome with
        | .ok _ => (jsonResp 200 "success" none, ⟨true, [(m.chat.id, helpText, "Markdown")]⟩)
        | .error _ =>
          (jsonResp 500 "error" (some "Internal error processing webhook."),
            ⟨true, [(m.chat.id, helpText, "Markdown")]⟩)

/-- File from types.ts (the `getFile` result); `file_unique_id` is never read. -/
structure TFile where
  file_id : String
  file_size : Option Nat
  file_path : Option String
deriving Repr, DecidableEq

/-- JS truthiness of `file_info.file_path` / the `file_id` route param:
`undefined` and `""` are falsy. -/
def optTruthy (o : Option String) : Bool :=
  !(o.getD "" == "")

/-- handlers.ts `handleFileProxy`: 400 when the `file_id` param is falsy;
otherwise resolve via `getFile` (oracle `getFileOutcome`); a thrown upstream
error or a falsy `file_path` lands in the catch arm (500 `Proxy failed: ...`);
otherwise build the download URL and either return it as JSON metadata
(`?json=true`) or 302-redirect to it. -/
def handleFileProxy (fileIdParam : Option String) (returnJson : Bool) (env : EnvCfg)
    (getFileOutcome : UpstreamResult TFile) : Response :=
  if optTruthy fileIdParam = false then
    jsonResp 400 "error" (some "File ID is missing.")
  else
    match getFileOutcome with
    | .err msg => jsonResp 500 "error" (some ("Proxy failed: " ++ msg))
    | .ok f =>
      if optTruthy f.file_path = false then
        jsonResp 500 "error" (some "Proxy failed: file_path not available in file info.")
      else
        let file_url :=
          "https://api.telegram.org/file/bot" ++ env.BOT_TOKEN.getD "" ++ "/" ++
            f.file_path.getD ""
        if returnJson then
          { status := 200
            jsonStatus := some "success"
            jsonMessage := none
            downloadUrl := some file_url
            location := none
            bodyText := none
            headers := [("Content-Type", "application/json")] }
        else
          { status := 302
            jsonStatus := none
            jsonMessage := none
            downloadUrl := none
            location := some file_url
            bodyText := none
            headers := [] }

/-- Boolean prefix test on character lists. -/
def leadsB : List Char → List Char → Bool
  | [], _ => true
  | _ :: _, [] => false
  | a :: as, b :: bs => a == b && leadsB as bs

/-- Boolean substring (contiguous) test on character lists. -/
def substrB (needle : List Char) : List Char → Bool
  | [] => leadsB needle []
  | c :: rest => leadsB needle (c :: rest) || substrB needle rest

/-- A pattern of the shape `^\/name\/?$`: the path equals the literal or the
literal plus a trailing slash. -/
def matchExact (lit path : String) : Bool :=
  path == lit || path == lit ++ "/"

/-- The route pattern `^\/file\/(?<file_id>[^/]+)\/?$` (index.ts routes table):
after the `/file/` prefix, one or more non-slash characters (the capture),
then an optional trailing slash, then end of string. -/
def fileMatch (path : String) : Option String :=
  let pre := "/file/".data
  if leadsB pre path.data then
    let rest := path.data.drop pre.length
    let seg := rest.takeWhile (fun c => c != '/')
    let rem := rest.dropWhile (fun c => c != '/')
    if seg.isEmpty then none
    else if rem.isEmpty || rem == ['/'] then some (String.mk seg) else none
  else none

/-- The six entries of the routes table. -/
inductive Route where
  | webhookR
  | fileProxyR (file_id : String)
  | setWebhookR
  | deleteWebhookR
  | infoR
  | debugR
deriving Repr, DecidableEq

/-- First match wins over the ordered routes table; the patterns are mutually
exclusive, so the cascade below reproduces the table's iteration order. -/
def matchRoute (method path : String) : Option Route :=
  if method == "POST" && matchExact "/webhook" path then some .webhookR
  else if method == "GET" then
    match fileMatch path with
    | some fid => some (.fileProxyR fid)
    | none =>
      if matchExact "/setWebhook" path then some .setWebhookR
      else if matchExact "/deleteWebhook" path then some .deleteWebhookR
      else if matchExact "/info" path || matchExact "/getWebhookInfo" path then some .infoR
      else if matchExact "/debug" path then some .debugR
      else none
  else none

/-- What a matched route handler did: returned a response, or threw. -/
inductive HandlerOutcome where
  | ret (r : Response)
  | thrown (msg : String)

/-- The three CORS headers of the top-level fetch handler (index.ts). -/
def corsList : List (String × String) :=
  [("Access-Control-Allow-Origin", "*"),
   ("Access-Control-Allow-Methods", "GET, POST, OPTIONS"),
   ("Access-Control-Allow-Headers", "Content-Type, Authorization, X-Telegram-Bot-API-Secret-Token")]

/-- `headers.set(k, v)`: replaces any existing entry for `k`. -/
def setHeader (hs : List (String × String)) (k v : String) : List (String × String) :=
  hs.filter (fun p => p.1 != k) ++ [(k, v)]

/-- Header lookup. -/
def getHeader (hs : List (String × String)) (k : String) : Option String :=
  (hs.find? (fun p => p.1 == k)).map (fun p => p.2)

/-- `Object.entries(corsHeaders).forEach((k, v) => headers.set(k, v))` applied
to a header list, in the `corsHeaders` object's entry order. -/
def corsSet (hs : List (String × String)) : List (String × String) :=
  setHeader (setHeader (setHeader hs "Access-Control-Allow-Origin" "*") "Access-Control-Allow-Methods" "GET, POST, OPTIONS") "Access-Control-Allow-Headers" "Content-Type, Authorization, X-Telegram-Bot-API-Secret-Token"

/-- The `addCors` wrapper: sets the three CORS headers on the response. -/
def addCors (r : Response) : Response :=
  { r with headers := corsSet r.headers }

/-- The 500 returned before routing when `BOT_TOKEN` is not set; its literal
header object carries only `Content-Type` and `Access-Control-Allow-Origin`. -/
def configErrorResponse : Response :=
  { status := 500
    jsonStatus := some "error"
    jsonMessage := some "Configuration error: CRITICAL: BOT_TOKEN environment variable is not set."
    downloadUrl := none
    location := none
    bodyText := none
    headers := [("Content-Type", "application/json"), ("Access-Control-Allow-Origin", "*")] }

/-- The default liveness response for unmatched routes. -/
def livenessResponse : Response :=
  jsonResp 200 "success" (some "Telegram File Proxy Worker is running. See /debug for status.")

/-- The OPTIONS preflight short-circuit: empty body, only the CORS headers. -/
def optionsResponse : Response :=
  { status := 200
    jsonStatus := none
    jsonMessage := none
    downloadUrl := none
    location := none
    bodyText := none
    headers := corsList }

/-- What the fetch handler does with a matched handler's outcome: a returned
response goes through `addCors`; a thrown error is caught (the catch arm
builds a 500) and also goes through `addCors`. -/
def dispatchOutcome (o : HandlerOutcome) : Response :=
  match o with
  | .ret resp => addCors resp
  | .thrown msg =>
    addCors
      { status := 500
        jsonStatus := some "error"
        jsonMessage := some ("Unhandled error: " ++ msg)
        downloadUrl := none
        location := none
        bodyText := none
        headers := [] }

/-- The top-level fetch handler (index.ts): BOT_TOKEN guard, OPTIONS
short-circuit, route dispatch inside `try` (a handler may return or throw;
see `dispatchOutcome`), default liveness for unmatched routes; every path
after the OPTIONS check returns through `addCors`.  `oracle` stands for the
behaviour of whichever handler a route dispatches to. -/
def fetchModel (env : EnvCfg) (method path : String)
    (oracle : Route → HandlerOutcome) : Response :=
  if strTruthy env.BOT_TOKEN = false then configErrorResponse
  else if method == "OPTIONS" then optionsResponse
  else
    match matchRoute method path with
    | some r => dispatchOutcome (oracle r)
    | none => addCors livenessResponse

/-- The `env.worker_url` field of the debug body:
`env.WORKER_URL || "Not Set (using request host: " + worker_host + ")"`,
where `worker_host` is the request host in the falsy branch. -/
def debugWorkerUrlField (env : EnvCfg) (host : String) : String :=
  if strTruthy env.WORKER_URL then env.WORKER_URL.getD ""
  else "Not Set (using request host: " ++ host ++ ")"

/-- The body of `GET /debug` (handlers.ts `debugEnv`), rendered as
`JSON.stringify(data, null, 2)` renders it.  The JSON string-escaping of the
`worker_url` value is elided (no claim depends on it); the token values are
never serialized, only `[REDACTED]` / `Not Set` markers derived from their
truthiness. -/
def debugBody (env : EnvCfg) (host : String) : String :=
  "\x7b\n  \"status\": \"success\",\n  \"message\": \"Telegram File Proxy Worker is running.\",\n  \"env\": \x7b\n    \"bot_token\": \"" ++
    (if strTruthy env.BOT_TOKEN then "[REDACTED]" else "Not Set") ++
    "\",\n    \"secret_token\": \"" ++
    (if strTruthy env.SECRET_TOKEN then "[REDACTED]" else "Not Set") ++
    "\",\n    \"worker_url\": \"" ++ debugWorkerUrlField env host ++
    "\"\n  \x7d\n\x7d"

/-- handlers.ts `debugEnv`: 200 JSON response whose body is `debugBody`. -/
def debugEnv (env : EnvCfg) (host : String) : Response :=
  { status := 200
    jsonStatus := some "success"
    jsonMessage := some "Telegram File Proxy Worker is running."
    downloadUrl := none
    location := none
    bodyText := some (debugBody env host)
    headers := [("Content-Type", "application/json")] }

/-- The three CORS headers are present with the values the fetch wrapper sets. -/
def hasCors (r : Response) : Prop :=
  getHeader r.headers "Access-Control-Allow-Origin" = some "*" ∧
  getHeader r.headers "Access-Control-Allow-Methods" = some "GET, POST, OPTIONS" ∧
  getHeader r.headers "Access-Control-Allow-Headers" =
    some "Content-Type, Authorization, X-Telegram-Bot-API-Secret-Token"

/-- Example photos with absent `file_size`, for the C1 fallback analysis. -/
def photoA : PhotoSize := ⟨"photoA", none⟩

def photoB : PhotoSize := ⟨"photoB", none⟩

/-- A message whose only media field is a two-element photo array, both sizes
absent. -/
def msgPhotoOnly : Message :=
  ⟨⟨1⟩, none, some [photoA, photoB], none, none, none, none⟩

/-- A message with both a document and a photo array (C5's scenario). -/
def docEx : Document := ⟨"docFid", some "name.bin"⟩

def msgDocPhoto : Message :=
  ⟨⟨2⟩, none, some [⟨"p1", some 100⟩, ⟨"p2", some 500⟩, ⟨"p3", some 300⟩],
    some docEx, none, none, none⟩

/-- A plain text message (no media), for the C3 witness. -/
def msgTextOnly : Message := ⟨⟨7⟩, some "hi", none, none, none, none, none⟩

/-!  Helper lemmas about the stable descending photo sort. -/

/-- The head of the stable descending sort of a non-empty list is an element
of the list whose key is maximal. -/
theorem sortPhotosDesc_head_max :
    ∀ l : List PhotoSize, l ≠ [] →
      ∃ p, (sortPhotosDesc l).head? = some p ∧ p ∈ l ∧ ∀ q ∈ l, photoKey q ≤ photoKey p := by
  intro l
  induction l with
  | nil => intro h; exact absurd rfl h
  | cons x xs ih =>
    intro _
    by_cases hxs : xs = []
    · subst hxs
      refine ⟨x, rfl, List.mem_singleton.mpr rfl, ?_⟩
      intro q hq
      rw [List.mem_singleton.mp hq]
    · obtain ⟨p, hp, hpmem, hpmax⟩ := ih hxs
      have hstep : sortPhotosDesc (x :: xs) = insertDesc x (sortPhotosDesc xs) := rfl
      cases hsx : sortPhotosDesc xs with
      | nil => rw [hsx] at hp; simp at hp
      | cons a rest =>
        rw [hsx] at hp
        have ha : a = p := by simpa using hp
        subst ha
        rw [hstep, hsx]
        by_cases hk : photoKey a ≤ photoKey x
        · refine ⟨x, ?_, List.mem_cons_self x xs, ?_⟩
          · simp [insertDesc, hk]
          · intro q hq
            rcases List.mem_cons.mp hq with hq1 | hq2
            · rw [hq1]
            · exact (hpmax q hq2).trans hk
        · refine ⟨a, ?_, List.mem_cons_of_mem x hpmem, ?_⟩
          · simp [insertDesc, hk]
          · intro q hq
            rcases List.mem_cons.mp hq with hq1 | hq2
            · rw [hq1]; exact le_of_lt (Nat.lt_of_not_le hk)
            · exact hpmax q hq2

/-- When every `file_size` is absent all keys are 0, so the stable sort keeps
the original order. -/
theorem sortPhotosDesc_allNone :
    ∀ l : List PhotoSize, (∀ q ∈ l, q.file_size = none) → sortPhotosDesc l = l := by
  intro l
  induction l with
  | nil => intro _; rfl
  | cons x xs ih =>
    intro h
    have hxs : sortPhotosDesc xs = xs := ih fun q hq => h q (List.mem_cons_of_mem _ hq)
    have hstep : sortPhotosDesc (x :: xs) = insertDesc x (sortPhotosDesc xs) := rfl
    rw [hstep, hxs]
    cases xs with
    | nil => rfl
    | cons y ys =>
      have hy : photoKey y = 0 := by simp [photoKey, h y (by simp)]
      have hx : photoKey x = 0 := by simp [photoKey, h x (by simp)]
      simp [insertDesc, hy, hx]

/-!  Helper lemmas about header maps and the CORS wrapper. -/

/-- After `headers.set(k, v)`, looking up `k` yields `v`. -/
theorem getHeader_set_self (hs : List (String × String)) (k v : String) :
    getHeader (setHeader hs k v) k = some v := by
  unfold getHeader setHeader
  rw [List.find?_append]
  have h1 : (hs.filter (fun p => p.1 != k)).find? (fun p => p.1 == k) = none := by
    rw [List.find?_eq_none]
    intro p hp
    have := List.of_mem_filter hp
    simpa using this
  rw [h1]
  simp

/-- `headers.set(k, v)` leaves lookups of other keys unchanged. -/
theorem getHeader_set_other (hs : List (String × String)) (k v k' : String) (h : k' ≠ k) :
    getHeader (setHeader hs k v) k' = getHeader hs k' := by
  unfold getHeader setHeader
  rw [List.find?_append]
  have h2 : ([(k, v)].find? (fun p => p.1 == k')) = none := by
    simp only [List.find?]
    have : (k == k') = false := by
      simpa using fun he => h he.symm
    simp [this]
  rw [h2]
  have h3 : ∀ l : List (String × String),
      (l.filter (fun p => p.1 != k)).find? (fun p => p.1 == k') = l.find? (fun p => p.1 == k') := by
    intro l
    induction l with
    | nil => rfl
    | cons a t ih =>
      by_cases hak : a.1 = k
      · have h1 : (a.1 != k) = false := by simp [hak]
        have hne : (a.1 == k') = false := by
          simp only [beq_eq_false_iff_ne, hak]
          exact fun he => h he.symm
        simp [List.filter_cons, h1, List.find?_cons, hne, ih]
      · have h1 : (a.1 != k) = true := by simp [hak]
        by_cases hak2 : a.1 = k'
        · have hpos : (a.1 == k') = true := by simp [hak2]
          simp [List.filter_cons, h1, List.find?_cons, hpos]
        · have hneg : (a.1 == k') = false := by simp [hak2]
          simp [List.filter_cons, h1, List.find?_cons, hneg, ih]
  rw [h3]
  cases hl : hs.find? (fun p => p.1 == k') <;> rfl

/-- Looking up Access-Control-Allow-Origin after the CORS wrapper. -/
theorem getHeader_corsSet_origin (hs : List (String × String)) :
    getHeader (corsSet hs) "Access-Control-Allow-Origin" = some "*" := by
  unfold corsSet
  rw [getHeader_set_other _ "Access-Control-Allow-Headers" _ "Access-Control-Allow-Origin"
      (by decide),
    getHeader_set_other _ "Access-Control-Allow-Methods" _ "Access-Control-Allow-Origin"
      (by decide),
    getHeader_set_self]

/-- Looking up Access-Control-Allow-Methods after the CORS wrapper. -/
theorem getHeader_corsSet_methods (hs : List (String × String)) :
    getHeader (corsSet hs) "Access-Control-Allow-Methods" = some "GET, POST, OPTIONS" := by
  unfold corsSet
  rw [getHeader_set_other _ "Access-Control-Allow-Headers" _ "Access-Control-Allow-Methods"
      (by decide),
    getHeader_set_self]

/-- Looking up Access-Control-Allow-Headers after the CORS wrapper. -/
theorem getHeader_corsSet_headers (hs : List (String × String)) :
    getHeader (corsSet hs) "Access-Control-Allow-Headers" =
      some "Content-Type, Authorization, X-Telegram-Bot-API-Secret-Token" := by
  unfold corsSet
  rw [getHeader_set_self]

/-- Every response that passed through `addCors` carries the three CORS
headers with the values of the fetch wrapper's `corsHeaders` object. -/
theorem hasCors_addCors (r : Response) : hasCors (addCors r) := by
  have hh : (addCors r).headers = corsSet r.headers := rfl
  unfold hasCors
  rw [hh]
  exact ⟨getHeader_corsSet_origin _, getHeader_corsSet_methods _, getHeader_corsSet_headers _⟩

/-- `sendMessage` resolves normally whatever the upstream did (shared helper). -/
theorem sendMessage_ok_aux (chatId : Int) (text : String) (env : EnvCfg)
    (parseMode : String) (out : UpstreamResult Unit) :
    sendMessage chatId text env parseMode out = Except.ok () := by
  cases out <;> rfl

/-- C1 counterexample: for a message whose only media field is the photo array
`[photoA, photoB]` with both `file_size` absent, the claim says the LAST
element (`photoB`) is selected; the code's stable descending sort leaves the
order unchanged and `[0]` picks the FIRST element (`photoA`). -/
theorem photo_fallback_counterexample :
    [photoA, photoB].getLast? = some photoB ∧
    selectMedia msgPhotoOnly = some (Media.pho photoA) ∧
    selectMedia msgPhotoOnly ≠ some (Media.pho photoB) := by
  decide

/-- C1 (amended): for every webhook message whose only media field is a
non-empty photo array, the media-selection step selects an element with
maximum `file_size` (absent sizes counting as 0); when every element's
`file_size` is absent, it falls back to selecting the FIRST element of the
array (the sort is stable and all keys tie). -/
theorem photo_selection_amended (m : Message) (ps : List PhotoSize)
    (hdoc : m.document = none) (hvid : m.video = none) (haud : m.audio = none)
    (hvoi : m.voice = none) (hpho : m.photo = some ps) (hne : ps ≠ []) :
    (∃ p, selectMedia m = some (.pho p) ∧ p ∈ ps ∧ ∀ q ∈ ps, photoKey q ≤ photoKey p) ∧
    ((∀ q ∈ ps, q.file_size = none) → selectMedia m = ps.head?.map Media.pho) := by
  have hsel : selectMedia m = ((sortPhotosDesc ps).head?).map Media.pho := by
    simp [selectMedia, hdoc, hvid, haud, hvoi, hpho]
  constructor
  · obtain ⟨p, hp, hmem, hmax⟩ := sortPhotosDesc_head_max ps hne
    exact ⟨p, by rw [hsel, hp]; rfl, hmem, hmax⟩
  · intro hall
    rw [hsel, sortPhotosDesc_allNone ps hall]

/-- C1 witness: the amended theorem applied to `msgPhotoOnly`. -/
theorem photo_selection_amended_witness :
    (∃ p, selectMedia msgPhotoOnly = some (.pho p) ∧ p ∈ [photoA, photoB] ∧
      ∀ q ∈ [photoA, photoB], photoKey q ≤ photoKey p) ∧
    ((∀ q ∈ [photoA, photoB], q.file_size = none) →
      selectMedia msgPhotoOnly = [photoA, photoB].head?.map Media.pho) :=
  photo_selection_amended msgPhotoOnly [photoA, photoB] rfl rfl rfl rfl rfl (by decide)

/-- C5: media selection follows the fixed priority order document, video,
audio, voice, then photo (stable-descending-sort head), the first present
field winning; in particular a message with both a document and a photo array
selects the document's `file_id`. -/
theorem media_priority_order (m : Message) :
    (∀ d, m.document = some d → selectMedia m = some (.doc d)) ∧
    (m.document = none → ∀ v, m.video = some v → selectMedia m = some (.vid v)) ∧
    (m.document = none → m.video = none → ∀ a, m.audio = some a →
      selectMedia m = some (.aud a)) ∧
    (m.document = none → m.video = none → m.audio = none → ∀ v, m.voice = some v →
      selectMedia m = some (.voi v)) ∧
    (m.document = none → m.video = none → m.audio = none → m.voice = none →
      selectMedia m = (match m.photo with
        | some ps => ((sortPhotosDesc ps).head?).map Media.pho
        | none => none)) ∧
    (∀ d ps, m.document = some d → m.photo = some ps →
      (selectMedia m).map Media.file_id = some d.file_id) := by
  refine ⟨?_, ?_, ?_, ?_, ?_, ?_⟩
  · intro d hd; simp [selectMedia, hd]
  · intro hd v hv; simp [selectMedia, hd, hv]
  · intro hd hv a ha; simp [selectMedia, hd, hv, ha]
  · intro hd hv ha v hvo; simp [selectMedia, hd, hv, ha, hvo]
  · intro hd hv ha hvo; simp [selectMedia, hd, hv, ha, hvo]
  · intro d ps hd _; simp [selectMedia, hd, Media.file_id]

/-- C5 witness: the priority theorem applied to a message carrying both a
document and a three-element photo array (sizes 100, 500, 300): the
document's `file_id` is selected, not the largest photo's. -/
theorem media_priority_order_witness :
    (selectMedia msgDocPhoto).map Media.file_id = some "docFid" :=
  (media_priority_order msgDocPhoto).2.2.2.2.2 docEx
    [⟨"p1", some 100⟩, ⟨"p2", some 500⟩, ⟨"p3", some 300⟩] rfl rfl

/-- C10: `sendMessage` returns normally for every chat id, text and parse
mode, under every upstream outcome: a thrown upstream error is caught inside
`sendMessage` and never propagated to its caller. -/
theorem sendMessage_never_throws (chatId : Int) (text : String) (env : EnvCfg)
    (parseMode : String) (out : UpstreamResult Unit) :
    sendMessage chatId text env parseMode out = Except.ok () :=
  sendMessage_ok_aux chatId text env parseMode out

/-- C2: when `SECRET_TOKEN` is configured (truthy) and the secret header is
absent or differs, the webhook handler answers 403, the body is never parsed,
and no upstream call is made; when `SECRET_TOKEN` is not configured, the
request is treated as authenticated. -/
theorem webhook_auth_gate (req : WebhookRequest) (env : EnvCfg) (out : UpstreamResult Unit) :
    (strTruthy env.SECRET_TOKEN = true →
      req.secretHeader ≠ some (secretValue env) →
        (handleWebhook req env out).1.status = 403 ∧
        (handleWebhook req env out).2.bodyParseAttempted = false ∧
        (handleWebhook req env out).2.sendCalls = []) ∧
    (strTruthy env.SECRET_TOKEN = false → checkWebhookAuth req env = true) := by
  constructor
  · intro htr hmis
    have hsec : ¬ secretValue env = "" := by
      simpa [strTruthy, secretValue] using htr
    have hchk : checkWebhookAuth req env = false := by
      unfold checkWebhookAuth
      rw [if_neg (by simpa using hsec)]
      cases hh : req.secretHeader with
      | none => rfl
      | some t =>
        have hne : ¬ t = secretValue env := fun he => hmis (by rw [hh, he])
        simpa using hne
    simp [handleWebhook, hchk, jsonResp]
  · intro hf
    have hsec : secretValue env = "" := by
      simpa [strTruthy, secretValue] using hf
    simp [checkWebhookAuth, hsec]

/-- C2 witness: the auth gate applied to a request with no secret header
against an environment whose `SECRET_TOKEN` is `"sec"`. -/
theorem webhook_auth_gate_witness :
    (handleWebhook ⟨none, ParseResult.okBody none, "h.example"⟩
        ⟨some "bot", some "sec", none⟩ (.ok ())).1.status = 403 ∧
    (handleWebhook ⟨none, ParseResult.okBody none, "h.example"⟩
        ⟨some "bot", some "sec", none⟩ (.ok ())).2.bodyParseAttempted = false ∧
    (handleWebhook ⟨none, ParseResult.okBody none, "h.example"⟩
        ⟨some "bot", some "sec", none⟩ (.ok ())).2.sendCalls = [] :=
  (webhook_auth_gate ⟨none, ParseResult.okBody none, "h.example"⟩
      ⟨some "bot", some "sec", none⟩ (.ok ())).1 (by decide) (by decide)

/-- C3: for every authenticated webhook request whose body parses to an
update containing a message, the handler acknowledges with HTTP 200 and JSON
status "success", whether the outbound `sendMessage` succeeds or throws. -/
theorem webhook_always_acks (req : WebhookRequest) (env : EnvCfg) (m : Message)
    (out : UpstreamResult Unit)
    (hauth : checkWebhookAuth req env = true)
    (hbody : req.body = ParseResult.okBody (some m)) :
    (handleWebhook req env out).1.status = 200 ∧
    (handleWebhook req env out).1.jsonStatus = some "success" := by
  unfold handleWebhook
  rw [hauth, hbody]
  cases hcf : chosenFile m with
  | some md => simp [hcf, sendMessage_ok_aux, jsonResp]
  | none => simp [hcf, sendMessage_ok_aux, jsonResp]

/-- C3 witness: applied to a text-only message with no secret configured and
a FAILING upstream `sendMessage` (`err "boom"`): the handler still returns
200/success. -/
theorem webhook_always_acks_witness :
    (handleWebhook ⟨none, ParseResult.okBody (some msgTextOnly), "h.example"⟩
        ⟨some "bot", none, none⟩ (.err "boom")).1.status = 200 ∧
    (handleWebhook ⟨none, ParseResult.okBody (some msgTextOnly), "h.example"⟩
        ⟨some "bot", none, none⟩ (.err "boom")).1.jsonStatus = some "success" :=
  webhook_always_acks ⟨none, ParseResult.okBody (some msgTextOnly), "h.example"⟩
    ⟨some "bot", none, none⟩ msgTextOnly (.err "boom") (by decide) rfl

/-- C4 counterexample: with `BOT_TOKEN` configured, `GET /file/` does not
match the file-proxy route pattern (`[^/]+` needs at least one character), so
the fetch handler falls through to the default liveness response: HTTP 200
with JSON status "success" — not the claimed 400 error. -/
theorem file_route_empty_id_counterexample :
    matchRoute "GET" "/file/" = none ∧
    (fetchModel ⟨some "token", none, none⟩ "GET" "/file/"
      (fun _ => HandlerOutcome.thrown "never reached")).status = 200 ∧
    ¬ (fetchModel ⟨some "token", none, none⟩ "GET" "/file/"
      (fun _ => HandlerOutcome.thrown "never reached")).status = 400 ∧
    (fetchModel ⟨some "token", none, none⟩ "GET" "/file/"
      (fun _ => HandlerOutcome.thrown "never reached")).jsonStatus = some "success" := by
  decide

/-- C4 (amended): a GET request to `/file/` with an empty id segment does not
match the file-proxy route; it receives the default liveness response (HTTP
200, JSON status "success") and no route handler — hence no upstream platform
API call — is invoked (the result is independent of every handler's
behaviour). -/
theorem file_route_empty_id_amended (env : EnvCfg) (oracle : Route → HandlerOutcome)
    (hbot : strTruthy env.BOT_TOKEN = true) :
    matchRoute "GET" "/file/" = none ∧
    fetchModel env "GET" "/file/" oracle = addCors livenessResponse ∧
    (fetchModel env "GET" "/file/" oracle).status = 200 ∧
    (fetchModel env "GET" "/file/" oracle).jsonStatus = some "success" ∧
    ∀ oracle2 : Route → HandlerOutcome,
      fetchModel env "GET" "/file/" oracle = fetchModel env "GET" "/file/" oracle2 := by
  have hmr : matchRoute "GET" "/file/" = none := by decide
  have hopt : (("GET" : String) == "OPTIONS") = false := by decide
  have hfm : ∀ o : Route → HandlerOutcome,
      fetchModel env "GET" "/file/" o = addCors livenessResponse := by
    intro o
    unfold fetchModel
    rw [hbot, hmr]
    simp [hopt]
  refine ⟨hmr, hfm oracle, ?_, ?_, fun o2 => (hfm oracle).trans (hfm o2).symm⟩
  · rw [hfm oracle]; rfl
  · rw [hfm oracle]; rfl

/-- C4 witness: the amended theorem applied to a concrete configured
environment and a concrete (always-throwing) handler oracle. -/
theorem file_route_empty_id_amended_witness :
    matchRoute "GET" "/file/" = none ∧
    fetchModel ⟨some "tk", none, none⟩ "GET" "/file/"
      (fun _ => HandlerOutcome.thrown "e") = addCors livenessResponse :=
  ⟨(file_route_empty_id_amended ⟨some "tk", none, none⟩
      (fun _ => HandlerOutcome.thrown "e") (by decide)).1,
   (file_route_empty_id_amended ⟨some "tk", none, none⟩
      (fun _ => HandlerOutcome.thrown "e") (by decide)).2.1⟩

/-- C9: with `BOT_TOKEN` configured, every non-OPTIONS response of the
top-level fetch handler — matched-route return, thrown-handler catch, or the
default liveness fall-through — carries the three CORS headers set by
`addCors`. -/
theorem fetch_cors_invariant (env : EnvCfg) (method path : String)
    (oracle : Route → HandlerOutcome)
    (hbot : strTruthy env.BOT_TOKEN = true) (hm : method ≠ "OPTIONS") :
    hasCors (fetchModel env method path oracle) := by
  have hdisp : ∀ o : HandlerOutcome, hasCors (dispatchOutcome o) := by
    intro o
    cases o with
    | ret resp => exact hasCors_addCors resp
    | thrown msg => exact hasCors_addCors _
  unfold fetchModel
  rw [hbot, if_neg (by simp)]
  have hopt : (method == "OPTIONS") = false := by simpa using hm
  rw [hopt, if_neg (by simp)]
  cases hmr : matchRoute method path with
  | none => exact hasCors_addCors livenessResponse
  | some r => exact hdisp (oracle r)

/-- C9 witness: the CORS invariant applied to a concrete request whose route
handler throws. -/
theorem fetch_cors_invariant_witness :
    hasCors (fetchModel ⟨some "tk", some "sec", none⟩ "GET" "/debug"
      (fun _ => HandlerOutcome.thrown "e")) :=
  fetch_cors_invariant ⟨some "tk", some "sec", none⟩ "GET" "/debug"
    (fun _ => HandlerOutcome.thrown "e") (by decide) (by decide)

/-- C6: when the upstream `getFile` call succeeds but the returned File has
no `file_path`, the file-proxy handler responds 500 with an error body and
issues no redirect. -/
theorem fileproxy_missing_path_500 (fidParam : Option String) (rj : Bool) (env : EnvCfg)
    (f : TFile) (hfid : optTruthy fidParam = true) (hpath : f.file_path = none) :
    (handleFileProxy fidParam rj env (.ok f)).status = 500 ∧
    (handleFileProxy fidParam rj env (.ok f)).jsonStatus = some "error" ∧
    (handleFileProxy fidParam rj env (.ok f)).location = none := by
  have h2 : optTruthy f.file_path = false := by simp [optTruthy, hpath]
  simp [handleFileProxy, hfid, h2, jsonResp]

/-- C6 witness: the theorem applied to a File whose `file_path` is absent. -/
theorem fileproxy_missing_path_500_witness :
    (handleFileProxy (some "fid1") true ⟨some "bot", none, none⟩
        (.ok ⟨"fid1", some 9, none⟩)).status = 500 ∧
    (handleFileProxy (some "fid1") true ⟨some "bot", none, none⟩
        (.ok ⟨"fid1", some 9, none⟩)).jsonStatus = some "error" ∧
    (handleFileProxy (some "fid1") true ⟨some "bot", none, none⟩
        (.ok ⟨"fid1", some 9, none⟩)).location = none :=
  fileproxy_missing_path_500 (some "fid1") true ⟨some "bot", none, none⟩
    ⟨"fid1", some 9, none⟩ (by decide) rfl

/-- C7: when the upstream resolution yields a (truthy) `file_path`, the
`download_url` of the `?json=true` body equals the Location of the 302
redirect produced without the flag, on the same resolved file and
configuration. -/
theorem fileproxy_json_matches_redirect (fid : String) (env : EnvCfg) (f : TFile)
    (p : String) (hfid : fid ≠ "") (hp : f.file_path = some p) (hpne : p ≠ "") :
    ∃ u, (handleFileProxy (some fid) true env (.ok f)).downloadUrl = some u ∧
         (handleFileProxy (some fid) false env (.ok f)).location = some u := by
  have h1 : optTruthy (some fid) = true := by simp [optTruthy, hfid]
  have h2 : optTruthy f.file_path = true := by simp [optTruthy, hp, hpne]
  have h3 : optTruthy (some p) = true := by simp [optTruthy, hpne]
  refine ⟨"https://api.telegram.org/file/bot" ++ env.BOT_TOKEN.getD "" ++ "/" ++ p, ?_, ?_⟩ <;>
    simp [handleFileProxy, h1, h2, h3, hp]

/-- C7 witness: the theorem applied to a concrete file id, token and path. -/
theorem fileproxy_json_matches_redirect_witness :
    ∃ u, (handleFileProxy (some "fid2") true ⟨some "BT", none, none⟩
            (.ok ⟨"fid2", some 9, some "docs/a.bin"⟩)).downloadUrl = some u ∧
         (handleFileProxy (some "fid2") false ⟨some "BT", none, none⟩
            (.ok ⟨"fid2", some 9, some "docs/a.bin"⟩)).location = some u :=
  fileproxy_json_matches_redirect "fid2" ⟨some "BT", none, none⟩
    ⟨"fid2", some 9, some "docs/a.bin"⟩ "docs/a.bin" (by decide) rfl (by decide)

/-- C8 counterexample: with `BOT_TOKEN := "success"` (a set, non-empty value),
the `/debug` body contains the literal value of `BOT_TOKEN` — the string
"success" occurs in the body's fixed template text — so "never contains the
literal value ... under any configuration" fails as stated. -/
theorem debug_token_substring_counterexample :
    strTruthy (EnvCfg.mk (some "success") none none).BOT_TOKEN = true ∧
    substrB "success".data
      ((debugBody ⟨some "success", none, none⟩ "example.com").data) = true := by
  decide

/-- C8 (amended): the `/debug` body is computed only from whether `BOT_TOKEN`
and `SECRET_TOKEN` are set, together with `WORKER_URL` and the request host —
never from the token values themselves (noninterference): two configurations
agreeing on those produce identical bodies.  Hence the body reveals only
whether each token is set, and can contain a token's literal value only when
that value coincides with text the body carries independently of the tokens
(as in the counterexample). -/
theorem debug_noninterference (e1 e2 : EnvCfg) (host : String)
    (hb : strTruthy e1.BOT_TOKEN = strTruthy e2.BOT_TOKEN)
    (hs : strTruthy e1.SECRET_TOKEN = strTruthy e2.SECRET_TOKEN)
    (hw : e1.WORKER_URL = e2.WORKER_URL) :
    (debugEnv e1 host).bodyText = (debugEnv e2 host).bodyText := by
  simp [debugEnv, debugBody, debugWorkerUrlField, hb, hs, hw]

/-- C8 witness: two configurations with different non-empty `BOT_TOKEN`
values produce the same `/debug` body. -/
theorem debug_noninterference_witness :
    (debugEnv ⟨some "alpha", none, none⟩ "h.example").bodyText =
    (debugEnv ⟨some "beta-very-different", none, none⟩ "h.example").bodyText :=
  debug_noninterference ⟨some "alpha", none, none⟩ ⟨some "beta-very-different", none, none⟩
    "h.example" (by decide) (by decide) rfl

end TgBot
